import Mathlib

/-
Shallow embedding of the cache / error-classification / retry core of the
ollama_enfa repository (python/ollama_cache.py and python/ollama_errors.py),
together with theorems settling the specification's claims about it.

Python strings are modelled as `List Char`; machine time (datetime) as `Int`
seconds; the on-disk cache as a function from file key to an optional stored
payload at parse-result granularity; raised Python exceptions as explicit
inductive values.
-/

namespace OllamaSpec

/-- Python `str` is modelled as a list of characters. -/
abbrev PyStr := List Char

/-- Turn a Lean string literal into the `PyStr` model. -/
def pstr (s : String) : PyStr := s.data

/-- The whitespace characters removed by Python `str.strip()` (ASCII set). -/
def isPySpace (c : Char) : Bool :=
  c = ' ' ∨ c = '\t' ∨ c = '\n' ∨ c = '\r' ∨ c = Char.ofNat 11 ∨ c = Char.ofNat 12

/-- Python `str.lstrip()`. -/
def lstrip (s : PyStr) : PyStr := s.dropWhile isPySpace

/-- Python `str.rstrip()`. -/
def rstrip (s : PyStr) : PyStr := (s.reverse.dropWhile isPySpace).reverse

/-- Python `str.strip()`. -/
def pstrip (s : PyStr) : PyStr := rstrip (lstrip s)

/-- Python `str.lower()` (ASCII model). -/
def plower (s : PyStr) : PyStr := s.map Char.toLower

/-- Python's `needle in hay` substring test. -/
def substr (needle : PyStr) : PyStr → Bool
  | [] => needle.isEmpty
  | c :: t => needle.isPrefixOf (c :: t) || substr needle t

/-! ### Error taxonomy (`ollama_errors.py`, class `ErrorType`) -/

/-- The ten error kinds of `ErrorType` in `ollama_errors.py`. -/
inductive ErrorType where
  | connection
  | timeout
  | authentication
  | validation
  | rate_limit
  | model_not_found
  | invalid_response
  | file_system
  | network
  | unknown
deriving DecidableEq, Repr

/-- An `OllamaError` value: message, kind, and diagnostic details
(`details` models the Python dict as an association list). -/
structure OllamaErr where
  message : PyStr
  error_type : ErrorType
  details : List (PyStr × PyStr)
deriving DecidableEq, Repr

/-- A raw (non-`OllamaError`) Python exception as seen by
`ErrorHandler._classify_error`: which `isinstance` tests it satisfies,
its type name, and its message (`str(error)`). -/
structure RawError where
  isAsyncioTimeout : Bool
  isAiohttpClientError : Bool
  isFileNotFound : Bool
  isPermissionError : Bool
  typeName : PyStr
  msg : PyStr
deriving DecidableEq, Repr

/-- The `details` dict built by every branch of `_classify_error`. -/
def classifyDetails (r : RawError) : List (PyStr × PyStr) :=
  [(pstr "original_error", r.msg), (pstr "error_type", r.typeName)]

/-- `ErrorHandler._classify_error` from `ollama_errors.py`: sequential
`isinstance` tests, with the aiohttp branch inspecting the lowered message. -/
def classify_error (r : RawError) : OllamaErr :=
  let error_str := plower r.msg
  if r.isAsyncioTimeout then
    ⟨pstr "La operación tardó demasiado en completarse", ErrorType.timeout, classifyDetails r⟩
  else if r.isAiohttpClientError then
    if substr (pstr "timeout") error_str then
      ⟨pstr "Timeout de conexión con Ollama", ErrorType.timeout, classifyDetails r⟩
    else if substr (pstr "connection") error_str then
      ⟨pstr "No se puede conectar a Ollama", ErrorType.connection, classifyDetails r⟩
    else
      ⟨pstr "Error de red con Ollama", ErrorType.connection, classifyDetails r⟩
  else if r.isFileNotFound then
    ⟨pstr "Archivo no encontrado", ErrorType.validation, classifyDetails r⟩
  else if r.isPermissionError then
    ⟨pstr "Error de permisos", ErrorType.validation, classifyDetails r⟩
  else
    ⟨pstr "Error inesperado: " ++ r.msg, ErrorType.unknown, classifyDetails r⟩

/-! ### Validation helpers (`ollama_errors.py`) -/

/-- `validate_question`: non-empty after stripping, at least 3 characters
after stripping, at most 10000 characters raw. -/
def validate_question (q : PyStr) : Bool :=
  if q = [] ∨ pstrip q = [] then false
  else if (pstrip q).length < 3 then false
  else if q.length > 10000 then false
  else true

/-- The fixed denylist of `validate_model`. -/
def dangerous_chars : List Char :=
  ['<', '>', Char.ofNat 34, Char.ofNat 39, '&', '|', ';', Char.ofNat 96]

/-- `validate_model`: non-empty after stripping and free of the denylist. -/
def validate_model (m : PyStr) : Bool :=
  if m = [] ∨ pstrip m = [] then false
  else if dangerous_chars.any (fun c => m.contains c) then false
  else true

/-- `validate_file_path`: the empty (or whitespace-only) path is valid;
paths containing `..` or starting with `/` are rejected; otherwise the
path must exist on the filesystem (modelled by the `pathExists` oracle). -/
def validate_file_path (p : PyStr) (pathExists : PyStr → Bool) : Bool :=
  if p = [] ∨ pstrip p = [] then true
  else if substr (pstr "..") p ∨ (pstr "/").isPrefixOf p then false
  else if ¬ pathExists p then false
  else true

/-! ### User-facing messages and the error handler (`ollama_errors.py`) -/

/-- `ErrorHandler._get_user_message`: fixed localized sentence per kind. -/
def get_user_message (e : OllamaErr) : PyStr :=
  match e.error_type with
  | ErrorType.connection => pstr "❌ No se puede conectar a Ollama. Verifica que esté ejecutándose."
  | ErrorType.timeout => pstr "⏰ La operación tardó demasiado. Intenta de nuevo."
  | ErrorType.authentication => pstr "🔐 Error de autenticación. Verifica tu configuración."
  | ErrorType.validation => pstr "⚠️ Error de validación. Verifica los datos de entrada."
  | ErrorType.rate_limit => pstr "🚫 Demasiadas consultas. Espera un momento."
  | ErrorType.model_not_found => pstr "🤖 Modelo no encontrado. Verifica que esté instalado."
  | ErrorType.invalid_response => pstr "📡 Respuesta inválida del servidor."
  | ErrorType.file_system => pstr "📁 Error del sistema de archivos."
  | ErrorType.network => pstr "🌐 Error de red. Verifica tu conexión."
  | ErrorType.unknown => pstr "❓ Error inesperado. Revisa los logs para más detalles."

/-- An exception raised inside this module's world: one of the five concrete
`OllamaError` subclasses, a bare `OllamaError`, or any other Python
exception (`raw`). -/
inductive RaisedExc where
  | connectionError (msg : PyStr)
  | timeoutError (msg : PyStr)
  | validationError (msg : PyStr)
  | modelNotFoundError (msg : PyStr)
  | rateLimitError (msg : PyStr)
  | baseOllama (e : OllamaErr)
  | raw (r : RawError)
deriving DecidableEq, Repr

/-- The `OllamaError` value an exception carries, `none` for a raw
(non-`OllamaError`) exception. Each subclass constructor fixes its kind. -/
def RaisedExc.toOllama : RaisedExc → Option OllamaErr
  | .connectionError msg => some ⟨msg, ErrorType.connection, []⟩
  | .timeoutError msg => some ⟨msg, ErrorType.timeout, []⟩
  | .validationError msg => some ⟨msg, ErrorType.validation, []⟩
  | .modelNotFoundError msg => some ⟨msg, ErrorType.model_not_found, []⟩
  | .rateLimitError msg => some ⟨msg, ErrorType.rate_limit, []⟩
  | .baseOllama e => some e
  | .raw _ => none

/-- `isinstance(e, (ConnectionError, TimeoutError))`: the test
`retry_operation` uses to decide whether to retry. -/
def RaisedExc.retryable : RaisedExc → Bool
  | .connectionError _ => true
  | .timeoutError _ => true
  | _ => false

/-- Kind of the raised exception when it is an `OllamaError`. -/
def RaisedExc.kindOf (e : RaisedExc) : Option ErrorType :=
  e.toOllama.map OllamaErr.error_type

/-- Mutable statistics state of `ErrorHandler` (the logging side effects are
not modelled; `error_stats` models the ten-key Python dict as a function). -/
structure ErrorHandler where
  error_count : Nat
  error_stats : ErrorType → Nat

/-- `ErrorHandler.__init__`: zeroed counters. -/
def ErrorHandler.init : ErrorHandler :=
  ⟨0, fun _ => 0⟩

/-- The `OllamaError` that `handle_error` works with: the exception itself
when it already is one, otherwise the result of `_classify_error`. -/
def RaisedExc.asOllama : RaisedExc → OllamaErr
  | .connectionError msg => ⟨msg, ErrorType.connection, []⟩
  | .timeoutError msg => ⟨msg, ErrorType.timeout, []⟩
  | .validationError msg => ⟨msg, ErrorType.validation, []⟩
  | .modelNotFoundError msg => ⟨msg, ErrorType.model_not_found, []⟩
  | .rateLimitError msg => ⟨msg, ErrorType.rate_limit, []⟩
  | .baseOllama e => e
  | .raw r => classify_error r

/-- `ErrorHandler.handle_error`: bump the total, classify if the exception
is not already an `OllamaError`, bump that kind's counter, and return the
user-facing message together with the new state. -/
def ErrorHandler.handle_error (h : ErrorHandler) (e : RaisedExc) : ErrorHandler × PyStr :=
  let oe : OllamaErr := e.asOllama
  (⟨h.error_count + 1,
    fun k => if k = oe.error_type then h.error_stats k + 1 else h.error_stats k⟩,
   get_user_message oe)

/-- `ErrorHandler.clear_stats`: reset the total and every per-kind count. -/
def ErrorHandler.clear_stats (_h : ErrorHandler) : ErrorHandler :=
  ⟨0, fun _ => 0⟩

/-- The ten kinds, in declaration order. -/
def allErrorTypes : List ErrorType :=
  [ErrorType.connection, ErrorType.timeout, ErrorType.authentication,
   ErrorType.validation, ErrorType.rate_limit, ErrorType.model_not_found,
   ErrorType.invalid_response, ErrorType.file_system, ErrorType.network,
   ErrorType.unknown]

/-- Sum of the per-kind counters. -/
def statsTotal (h : ErrorHandler) : Nat :=
  (allErrorTypes.map h.error_stats).sum

/-! ### Retry mechanism (`retry_operation` in `ollama_errors.py`) -/

/-- Outcome of a `retry_operation` call: a returned value, a raised
exception, or the `TypeError` produced by `raise None` when the loop body
never ran (`last_error` still `None`). -/
inductive RetryResult (α : Type) where
  | ok (a : α)
  | raised (e : RaisedExc)
  | raiseNoneTypeError
deriving DecidableEq, Repr

/-- The final `raise last_error` after the loop. -/
def finalRaise {α : Type} : Option RaisedExc → RetryResult α
  | none => RetryResult.raiseNoneTypeError
  | some e => RetryResult.raised e

/-- The `for attempt in range(max_retries)` loop of `retry_operation`,
with `fuel` the number of remaining iterations, `attempt` the current
0-based index, and `last_error` the accumulator. The operation is modelled
as a function of the attempt index; the result carries the outcome, the
number of times the operation was invoked, and the backoff waits performed
(in order). -/
def retryFrom {α : Type} (op : Nat → Except RaisedExc α) (delay : Rat) :
    Nat → Nat → Option RaisedExc → RetryResult α × Nat × List Rat
  | 0, _, last_error => (finalRaise last_error, 0, [])
  | fuel + 1, attempt, _ =>
    match op attempt with
    | Except.ok a => (RetryResult.ok a, 1, [])
    | Except.error e =>
      if e.retryable then
        if 0 < fuel then
          let rest := retryFrom op delay fuel (attempt + 1) (some e)
          (rest.1, rest.2.1 + 1, delay * 2 ^ attempt :: rest.2.2)
        else
          (finalRaise (some e), 1, [])
      else
        (RetryResult.raised e, 1, [])

/-- `retry_operation(operation, max_retries, delay)`; Python defaults are
`max_retries = 3`, `delay = 1.0`. -/
def retry_operation {α : Type} (op : Nat → Except RaisedExc α)
    (max_retries : Int) (delay : Rat) : RetryResult α × Nat × List Rat :=
  retryFrom op delay max_retries.toNat 0 none

/-! ### MD5 (`hashlib.md5`) over byte lists, 32-bit words as `Nat % 2^32` -/

namespace MD5

/-- `2^32`. -/
def M32 : Nat := 4294967296

/-- 32-bit modular addition. -/
def add32 (a b : Nat) : Nat := (a + b) % M32

/-- 32-bit bitwise complement. -/
def not32 (x : Nat) : Nat := Nat.xor x (M32 - 1)

/-- 32-bit left rotation (for `x < 2^32`, `0 < s < 32`). -/
def rotl32 (x s : Nat) : Nat := (x * 2 ^ s + x / 2 ^ (32 - s)) % M32

/-- The 64 sine-derived round constants `floor(2^32 * abs(sin(i+1)))`. -/
def Ktable : List Nat :=
  [3614090360, 3905402710, 606105819, 3250441966, 4118548399, 1200080426,
   2821735955, 4249261313, 1770035416, 2336552879, 4294925233, 2304563134,
   1804603682, 4254626195, 2792965006, 1236535329, 4129170786, 3225465664,
   643717713, 3921069994, 3593408605, 38016083, 3634488961, 3889429448,
   568446438, 3275163606, 4107603335, 1163531501, 2850285829, 4243563512,
   1735328473, 2368359562, 4294588738, 2272392833, 1839030562, 4259657740,
   2763975236, 1272893353, 4139469664, 3200236656, 681279174, 3936430074,
   3572445317, 76029189, 3654602809, 3873151461, 530742520, 3299628645,
   4096336452, 1126891415, 2878612391, 4237533241, 1700485571, 2399980690,
   4293915773, 2240044497, 1873313359, 4264355552, 2734768916, 1309151649,
   4149444226, 3174756917, 718787259, 3951481745]

/-- The per-round left-rotation amounts. -/
def Stable : List Nat :=
  [7, 12, 17, 22, 7, 12, 17, 22, 7, 12, 17, 22, 7, 12, 17, 22,
   5, 9, 14, 20, 5, 9, 14, 20, 5, 9, 14, 20, 5, 9, 14, 20,
   4, 11, 16, 23, 4, 11, 16, 23, 4, 11, 16, 23, 4, 11, 16, 23,
   6, 10, 15, 21, 6, 10, 15, 21, 6, 10, 15, 21, 6, 10, 15, 21]

/-- The four 32-bit state registers. -/
structure St where
  a : Nat
  b : Nat
  c : Nat
  d : Nat
deriving DecidableEq, Repr

/-- One of the 64 MD5 operations, given the block's word accessor `M`. -/
def step (M : Nat → Nat) (st : St) (i : Nat) : St :=
  let f :=
    if i < 16 then Nat.lor (Nat.land st.b st.c) (Nat.land (not32 st.b) st.d)
    else if i < 32 then Nat.lor (Nat.land st.d st.b) (Nat.land (not32 st.d) st.c)
    else if i < 48 then Nat.xor (Nat.xor st.b st.c) st.d
    else Nat.xor st.c (Nat.lor st.b (not32 st.d))
  let g :=
    if i < 16 then i
    else if i < 32 then (5 * i + 1) % 16
    else if i < 48 then (3 * i + 5) % 16
    else (7 * i) % 16
  let ff := add32 (add32 (add32 st.a f) (Ktable.getD i 0)) (M g)
  ⟨st.d, add32 st.b (rotl32 ff (Stable.getD i 0)), st.b, st.c⟩

/-- Little-endian 32-bit word `j` of a 64-byte block. -/
def toWords (block : List Nat) (j : Nat) : Nat :=
  block.getD (4 * j) 0 + 256 * block.getD (4 * j + 1) 0 +
    65536 * block.getD (4 * j + 2) 0 + 16777216 * block.getD (4 * j + 3) 0

/-- Process one 64-byte block. -/
def processBlock (st : St) (block : List Nat) : St :=
  let r := (List.range 64).foldl (step (toWords block)) st
  ⟨add32 st.a r.a, add32 st.b r.b, add32 st.c r.c, add32 st.d r.d⟩

/-- Process a padded message, 64 bytes at a time (structural recursion on
a fuel bound so the kernel can evaluate it; `l.length` iterations always
suffice since every round consumes 64 bytes). -/
def processAllFuel : Nat → St → List Nat → St
  | 0, st, _ => st
  | fuel + 1, st, l =>
    if l = [] then st
    else processAllFuel fuel (processBlock st (l.take 64)) (l.drop 64)

/-- Process a padded message, 64 bytes at a time. -/
def processAll (st : St) (l : List Nat) : St :=
  processAllFuel l.length st l

/-- MD5 padding: `0x80`, zeros to 56 mod 64, then the 64-bit little-endian
bit length. -/
def padMsg (msg : List Nat) : List Nat :=
  let zeros := (119 - msg.length % 64) % 64
  msg ++ 128 :: List.replicate zeros 0 ++
    (List.range 8).map (fun i => 8 * msg.length / 2 ^ (8 * i) % 256)

/-- The four little-endian bytes of a 32-bit word. -/
def wordBytes (w : Nat) : List Nat :=
  [w % 256, w / 256 % 256, w / 65536 % 256, w / 16777216 % 256]

/-- The 16-byte MD5 digest of a byte list. -/
def md5bytes (msg : List Nat) : List Nat :=
  let st := processAll ⟨1732584193, 4023233417, 2562383102, 271733878⟩ (padMsg msg)
  wordBytes st.a ++ wordBytes st.b ++ wordBytes st.c ++ wordBytes st.d

/-- A nibble as a lowercase hex character. -/
def hexDigit (n : Nat) : Char :=
  (pstr "0123456789abcdef").getD n '0'

/-- `hexdigest()`: the digest as 32 lowercase hex characters. -/
def md5hex (msg : List Nat) : PyStr :=
  (md5bytes msg).foldr (fun b acc => hexDigit (b / 16) :: hexDigit (b % 16) :: acc) []

end MD5

/-- UTF-8 encoding of one character. -/
def utf8Char (c : Char) : List Nat :=
  let n := c.toNat
  if n < 128 then [n]
  else if n < 2048 then [192 + n / 64, 128 + n % 64]
  else if n < 65536 then [224 + n / 4096, 128 + n / 64 % 64, 128 + n % 64]
  else [240 + n / 262144, 128 + n / 4096 % 64, 128 + n / 64 % 64, 128 + n % 64]

/-- Python `s.encode('utf-8')`. -/
def utf8Encode (s : PyStr) : List Nat :=
  s.foldr (fun c acc => utf8Char c ++ acc) []

/-! ### Disk cache (`ollama_cache.py`, class `OllamaCache`) -/

namespace OllamaCache

/-- `OllamaCache._generate_cache_key`: MD5 hex digest of the UTF-8 bytes of
`question`, `context` and `model` joined by `|`. -/
def _generate_cache_key (question context model : PyStr) : PyStr :=
  MD5.md5hex (utf8Encode (question ++ pstr "|" ++ context ++ pstr "|" ++ model))

/-- The JSON value stored under `timestamp`, at the granularity
`datetime.fromisoformat` distinguishes. -/
inductive TsField where
  | validIso (t : Int)
  | badString
  | nonString
deriving DecidableEq, Repr

/-- A parsed cache file's content; absent fields raise `KeyError` when
subscripted. -/
structure CacheRecord where
  question : Option PyStr
  response : Option PyStr
  context : Option PyStr
  model : Option PyStr
  timestamp : Option TsField
  cache_key : Option PyStr
deriving DecidableEq, Repr

/-- What `json.load` yields for a cache file: a JSON parse failure, a
non-object document (subscripting it raises `TypeError`), or an object. -/
inductive StoredPayload where
  | unparseable
  | nonObject
  | record (r : CacheRecord)
deriving DecidableEq, Repr

/-- The cache directory, as file content per key. -/
def FS : Type := PyStr → Option StoredPayload

/-- Point update of the cache directory (`none` deletes the file). -/
def fsSet (fs : FS) (k : PyStr) (v : Option StoredPayload) : FS :=
  fun k2 => if k2 = k then v else fs k2

/-- Exceptions that `OllamaCache.get` can leak to its caller: only the
tuple `(json.JSONDecodeError, KeyError, OSError)` is caught, so
`ValueError` and `TypeError` from timestamp handling escape. -/
inductive GetRaise where
  | valueError
  | typeError
deriving DecidableEq, Repr

/-- `OllamaCache.get`: look the key up, treat a JSON parse failure or a
missing field as a silent miss with deletion, delete and miss when the
entry's age exceeds `max_age_seconds`, and otherwise return the stored
response. Returns the outcome together with the updated directory. -/
def get (max_age_seconds : Int) (now : Int) (fs : FS)
    (question context model : PyStr) : Except GetRaise (Option PyStr) × FS :=
  let cache_key := _generate_cache_key question context model
  match fs cache_key with
  | none => (Except.ok none, fs)
  | some StoredPayload.unparseable => (Except.ok none, fsSet fs cache_key none)
  | some StoredPayload.nonObject => (Except.error GetRaise.typeError, fs)
  | some (StoredPayload.record r) =>
    match r.timestamp with
    | none => (Except.ok none, fsSet fs cache_key none)
    | some TsField.badString => (Except.error GetRaise.valueError, fs)
    | some TsField.nonString => (Except.error GetRaise.typeError, fs)
    | some (TsField.validIso t) =>
      if now - t > max_age_seconds then (Except.ok none, fsSet fs cache_key none)
      else
        match r.response with
        | none => (Except.ok none, fsSet fs cache_key none)
        | some resp => (Except.ok (some resp), fs)

/-- `OllamaCache.set`: write the full record under the key; on a storage
failure (`writeOk = false`) warn and leave the directory unchanged. -/
def set (now : Int) (fs : FS) (question response context model : PyStr)
    (writeOk : Bool) : FS :=
  let cache_key := _generate_cache_key question context model
  if writeOk then
    fsSet fs cache_key (some (StoredPayload.record
      ⟨some question, some response, some context, some model,
       some (TsField.validIso now), some cache_key⟩))
  else fs

end OllamaCache

/-! ### Helper lemmas -/

theorem mem_of_isPrefixOf {n h : PyStr} (hp : n.isPrefixOf h = true) :
    ∀ c ∈ n, c ∈ h := by
  induction n generalizing h with
  | nil => intro c hc; cases hc
  | cons a as ih =>
    cases h with
    | nil => simp [List.isPrefixOf] at hp
    | cons b bs =>
      simp only [List.isPrefixOf, Bool.and_eq_true, beq_iff_eq] at hp
      intro c hc
      rcases List.mem_cons.mp hc with hca | hcas
      · exact hca ▸ hp.1 ▸ List.mem_cons_self b bs
      · exact List.mem_cons_of_mem b (ih hp.2 c hcas)

theorem mem_of_substr {n h : PyStr} (hs : substr n h = true) : ∀ c ∈ n, c ∈ h := by
  induction h with
  | nil =>
    simp only [substr, List.isEmpty_iff] at hs
    subst hs
    intro c hc
    cases hc
  | cons b t ih =>
    simp only [substr, Bool.or_eq_true] at hs
    rcases hs with hp | hrest
    · exact mem_of_isPrefixOf hp
    · intro c hc
      exact List.mem_cons_of_mem b (ih hrest c hc)

theorem all_space_of_pstrip_eq_nil {s : PyStr} (h : pstrip s = []) :
    ∀ c ∈ s, isPySpace c = true := by
  unfold pstrip rstrip lstrip at h
  rw [List.reverse_eq_nil_iff, List.dropWhile_eq_nil_iff] at h
  intro c hc
  rw [← List.takeWhile_append_dropWhile isPySpace s] at hc
  rcases List.mem_append.mp hc with h1 | h2
  · exact List.mem_takeWhile_imp h1
  · exact h c (List.mem_reverse.mpr h2)

theorem length_dropWhile_le (p : Char → Bool) (l : PyStr) :
    (l.dropWhile p).length ≤ l.length := by
  conv_rhs => rw [← List.takeWhile_append_dropWhile p l]
  rw [List.length_append]
  omega

theorem pstrip_length_le (s : PyStr) : (pstrip s).length ≤ s.length :=
  calc (pstrip s).length
      = ((lstrip s).reverse.dropWhile isPySpace).length := by
        simp [pstrip, rstrip, List.length_reverse]
    _ ≤ (lstrip s).reverse.length := length_dropWhile_le _ _
    _ = (lstrip s).length := List.length_reverse _
    _ ≤ s.length := length_dropWhile_le _ _

theorem pstrip_replicate_a (n : Nat) :
    pstrip (List.replicate n 'a') = List.replicate n 'a' := by
  have hd : (List.replicate n 'a').dropWhile isPySpace = List.replicate n 'a' := by
    cases n with
    | zero => rfl
    | succ m =>
      rw [List.replicate_succ]
      exact List.dropWhile_cons_of_neg (by decide)
  unfold pstrip rstrip lstrip
  rw [hd, List.reverse_replicate, hd, List.reverse_replicate]

theorem statsTotal_bump (n n2 : Nat) (stats : ErrorType → Nat) (t : ErrorType) :
    statsTotal ⟨n2, fun k => if k = t then stats k + 1 else stats k⟩ =
      statsTotal ⟨n, stats⟩ + 1 := by
  cases t <;> simp [statsTotal, allErrorTypes] <;> omega

theorem retryFrom_succ {α : Type} (op : Nat → Except RaisedExc α) (delay : Rat)
    (fuel attempt : Nat) (le : Option RaisedExc) :
    retryFrom op delay (fuel + 1) attempt le =
      match op attempt with
      | Except.ok a => (RetryResult.ok a, 1, [])
      | Except.error e =>
        if e.retryable then
          if 0 < fuel then
            let rest := retryFrom op delay fuel (attempt + 1) (some e)
            (rest.1, rest.2.1 + 1, delay * 2 ^ attempt :: rest.2.2)
          else
            (finalRaise (some e), 1, [])
        else
          (RetryResult.raised e, 1, []) := rfl

theorem retryFrom_success {α : Type} (op : Nat → Except RaisedExc α) (delay : Rat) :
    ∀ (n fuel attempt : Nat) (le : Option RaisedExc) (v : α),
      (∀ i, i < n → ∃ e, op (attempt + i) = Except.error e ∧ e.retryable = true) →
      op (attempt + n) = Except.ok v →
      n < fuel →
      retryFrom op delay fuel attempt le =
        (RetryResult.ok v, n + 1, (List.range n).map (fun i => delay * 2 ^ (attempt + i))) := by
  intro n
  induction n with
  | zero =>
    intro fuel attempt le v _ hok hlt
    cases fuel with
    | zero => omega
    | succ f =>
      simp only [Nat.add_zero] at hok
      simp [retryFrom, hok]
  | succ m ih =>
    intro fuel attempt le v hfail hok hlt
    cases fuel with
    | zero => omega
    | succ f =>
      obtain ⟨e0, he0, hre0⟩ := hfail 0 (Nat.succ_pos m)
      rw [Nat.add_zero] at he0
      have hf : 0 < f := by omega
      have hrest :
          retryFrom op delay f (attempt + 1) (some e0) =
            (RetryResult.ok v, m + 1,
             (List.range m).map (fun i => delay * 2 ^ (attempt + 1 + i))) := by
        apply ih f (attempt + 1) (some e0) v
        · intro i hi
          obtain ⟨e, he, hre⟩ := hfail (i + 1) (by omega)
          exact ⟨e, by rw [show attempt + 1 + i = attempt + (i + 1) from by omega]; exact he, hre⟩
        · rw [show attempt + 1 + m = attempt + (m + 1) from by omega]
          exact hok
        · omega
      have hmap : (List.range (m + 1)).map (fun i => delay * 2 ^ (attempt + i)) =
          delay * 2 ^ attempt ::
            (List.range m).map (fun i => delay * 2 ^ (attempt + 1 + i)) := by
        rw [List.range_succ_eq_map, List.map_cons, List.map_map]
        refine congrArg₂ _ (by rw [Nat.add_zero]) ?_
        exact List.map_congr_left fun i _ => by
          rw [Function.comp_apply, show attempt + Nat.succ i = attempt + 1 + i from by omega]
      rw [retryFrom_succ, he0]
      simp only [hre0, if_pos hf, hrest, hmap, if_true]

theorem retryFrom_allfail {α : Type} (op : Nat → Except RaisedExc α) (delay : Rat)
    (errAt : Nat → RaisedExc)
    (hfail : ∀ i, op i = Except.error (errAt i))
    (hre : ∀ i, (errAt i).retryable = true) :
    ∀ (m attempt : Nat) (le : Option RaisedExc),
      retryFrom op delay (m + 1) attempt le =
        (RetryResult.raised (errAt (attempt + m)), m + 1,
         (List.range m).map (fun i => delay * 2 ^ (attempt + i))) := by
  intro m
  induction m with
  | zero =>
    intro attempt le
    simp [retryFrom, hfail attempt, hre attempt, finalRaise]
  | succ k ih =>
    intro attempt le
    have hrest := ih (attempt + 1) (some (errAt attempt))
    have hidx : attempt + 1 + k = attempt + (k + 1) := by omega
    have hmap : (List.range (k + 1)).map (fun i => delay * 2 ^ (attempt + i)) =
        delay * 2 ^ attempt ::
          (List.range k).map (fun i => delay * 2 ^ (attempt + 1 + i)) := by
      rw [List.range_succ_eq_map, List.map_cons, List.map_map]
      refine congrArg₂ _ (by rw [Nat.add_zero]) ?_
      exact List.map_congr_left fun i _ => by
        rw [Function.comp_apply, show attempt + Nat.succ i = attempt + 1 + i from by omega]
    rw [retryFrom_succ, hfail attempt]
    simp only [hre attempt, if_pos (Nat.succ_pos k), hrest, hidx, hmap, if_true]

/-! ### Claim theorems -/

/-- A generic `aiohttp.ClientError` whose message mentions neither
"timeout" nor "connection". -/
def genericClientError : RawError :=
  ⟨false, true, false, false, pstr "ClientError", pstr "boom"⟩

/-- C1 counterexample: the claim says the unmatched client-layer branch
yields kind `Network`, but `_classify_error` returns a `ConnectionError`
there, so a generic `aiohttp.ClientError` classifies as `Connection`, not
`Network`. -/
theorem classify_generic_client_not_network :
    (classify_error genericClientError).error_type = ErrorType.connection ∧
      (classify_error genericClientError).error_type ≠ ErrorType.network := by
  decide

/-- C1 (amended): classification maps every raw failure to exactly one kind
by the first matching rule, in order: a deadline/timeout failure to
`Timeout`; an aiohttp client failure whose lowered message contains
"timeout" to `Timeout`, whose message contains "connection" to
`Connection`, and otherwise to `Connection` (carrying the generic
network-error message); a missing-file failure to `Validation`; a
permission-denied failure to `Validation`; anything unmatched to `Unknown`.
Every branch carries the original failure's type name and message as
details, and classification is a total function (it never raises). -/
theorem classify_error_cases (r : RawError) :
    (r.isAsyncioTimeout = true → (classify_error r).error_type = ErrorType.timeout)
  ∧ (r.isAsyncioTimeout = false → r.isAiohttpClientError = true →
      substr (pstr "timeout") (plower r.msg) = true →
      (classify_error r).error_type = ErrorType.timeout)
  ∧ (r.isAsyncioTimeout = false → r.isAiohttpClientError = true →
      substr (pstr "timeout") (plower r.msg) = false →
      substr (pstr "connection") (plower r.msg) = true →
      (classify_error r).error_type = ErrorType.connection)
  ∧ (r.isAsyncioTimeout = false → r.isAiohttpClientError = true →
      substr (pstr "timeout") (plower r.msg) = false →
      substr (pstr "connection") (plower r.msg) = false →
      (classify_error r).error_type = ErrorType.connection ∧
        (classify_error r).message = pstr "Error de red con Ollama")
  ∧ (r.isAsyncioTimeout = false → r.isAiohttpClientError = false →
      r.isFileNotFound = true →
      (classify_error r).error_type = ErrorType.validation)
  ∧ (r.isAsyncioTimeout = false → r.isAiohttpClientError = false →
      r.isFileNotFound = false → r.isPermissionError = true →
      (classify_error r).error_type = ErrorType.validation)
  ∧ (r.isAsyncioTimeout = false → r.isAiohttpClientError = false →
      r.isFileNotFound = false → r.isPermissionError = false →
      (classify_error r).error_type = ErrorType.unknown ∧
        (classify_error r).message = pstr "Error inesperado: " ++ r.msg)
  ∧ (classify_error r).details = classifyDetails r := by
  have hdet : (classify_error r).details = classifyDetails r := by
    simp only [classify_error]
    split_ifs <;> rfl
  refine ⟨fun h1 => ?_, fun h1 h2 h3 => ?_, fun h1 h2 h3 h4 => ?_,
    fun h1 h2 h3 h4 => ?_, fun h1 h2 h3 => ?_, fun h1 h2 h3 h4 => ?_,
    fun h1 h2 h3 h4 => ?_, hdet⟩ <;>
    simp [classify_error, *]

/-- C1 witness: a deadline-exceeded failure classifies as `Timeout`. -/
theorem classify_error_cases_witness :
    (classify_error ⟨true, false, false, false, pstr "TimeoutError", pstr "t"⟩).error_type =
      ErrorType.timeout :=
  (classify_error_cases ⟨true, false, false, false, pstr "TimeoutError", pstr "t"⟩).1 rfl

/-- C7: a question of length 2 always fails; the concrete questions of
length 3 and of length 10000 pass; a question of length 10001 always
fails; an empty or whitespace-only question or model always fails; a model
containing any denylist character (in particular a semicolon) fails; the
empty path is accepted; a path containing `..` is rejected, whatever the
filesystem contains. -/
theorem validation_edge_cases :
    (∀ q : PyStr, q.length = 2 → validate_question q = false)
  ∧ validate_question (pstr "abc") = true
  ∧ validate_question (List.replicate 10000 'a') = true
  ∧ (∀ q : PyStr, q.length = 10001 → validate_question q = false)
  ∧ (∀ q : PyStr, pstrip q = [] → validate_question q = false)
  ∧ (∀ (m : PyStr) (c : Char), c ∈ dangerous_chars → c ∈ m → validate_model m = false)
  ∧ (∀ m : PyStr, pstrip m = [] → validate_model m = false)
  ∧ (∀ pathExists : PyStr → Bool, validate_file_path [] pathExists = true)
  ∧ (∀ (p : PyStr) (pathExists : PyStr → Bool),
      substr (pstr "..") p = true → validate_file_path p pathExists = false) := by
  refine ⟨?_, by decide, ?_, ?_, ?_, ?_, ?_, ?_, ?_⟩
  · intro q hq
    unfold validate_question
    split_ifs with h1 h2 h3 <;>
      first
      | rfl
      | (exfalso; have := pstrip_length_le q; omega)
  · have hlen : (List.replicate 10000 'a').length = 10000 := List.length_replicate 10000 'a'
    have hne : List.replicate 10000 'a' ≠ [] := by
      intro h
      rw [h] at hlen
      exact absurd hlen (by decide)
    unfold validate_question
    rw [pstrip_replicate_a, if_neg (fun hor => hne (hor.elim id id))]
    simp only [hlen]
    rw [if_neg (by decide), if_neg (by decide)]
  · intro q hq
    unfold validate_question
    split_ifs with h1 h2 h3 <;> first | rfl | omega
  · intro q hq
    simp [validate_question, hq]
  · intro m c hc hm
    unfold validate_model
    split_ifs with h1 h2
    · rfl
    · rfl
    · exfalso
      exact h2 (List.any_eq_true.mpr ⟨c, hc, List.elem_iff.mpr hm⟩)
  · intro m hm
    simp [validate_model, hm]
  · intro pathExists
    rfl
  · intro p pathExists hs
    have hdot : '.' ∈ p := mem_of_substr hs '.' (by decide)
    unfold validate_file_path
    split_ifs with h1 h2 h3 <;>
      first
      | rfl
      | exact absurd (Or.inl hs) h2
      | (exfalso
         rcases h1 with h1 | h1
         · rw [h1] at hdot
           cases hdot
         · have := all_space_of_pstrip_eq_nil h1 '.' hdot
           simp [isPySpace] at this)

/-- C7 witness: the length-2 question "ab" fails validation. -/
theorem validation_edge_cases_witness : validate_question (pstr "ab") = false :=
  validation_edge_cases.1 (pstr "ab") rfl

/-- C9: the total error count always equals the sum of the ten per-kind
counts: the invariant holds for a fresh handler, it is preserved by every
`handle_error` call (which adds one to the total and to exactly one kind),
and `clear_stats` resets the total and every per-kind count together. -/
theorem error_stats_invariant :
    (ErrorHandler.init.error_count = statsTotal ErrorHandler.init)
  ∧ (∀ (h : ErrorHandler) (e : RaisedExc),
      h.error_count = statsTotal h →
        ((h.handle_error e).1.error_count = statsTotal (h.handle_error e).1
        ∧ (h.handle_error e).1.error_count = h.error_count + 1
        ∧ (h.handle_error e).1.error_stats e.asOllama.error_type =
            h.error_stats e.asOllama.error_type + 1
        ∧ ∀ k, k ≠ e.asOllama.error_type →
            (h.handle_error e).1.error_stats k = h.error_stats k))
  ∧ (∀ h : ErrorHandler,
      (h.clear_stats).error_count = statsTotal h.clear_stats
      ∧ (h.clear_stats).error_count = 0
      ∧ ∀ k, (h.clear_stats).error_stats k = 0) := by
  refine ⟨rfl, ?_, ?_⟩
  · intro h e hinv
    refine ⟨?_, rfl, by simp [ErrorHandler.handle_error], ?_⟩
    · show h.error_count + 1 = statsTotal
        ⟨h.error_count + 1,
         fun k => if k = e.asOllama.error_type then h.error_stats k + 1 else h.error_stats k⟩
      rw [statsTotal_bump h.error_count (h.error_count + 1) h.error_stats e.asOllama.error_type]
      exact congrArg (· + 1) hinv
    · intro k hk
      simp [ErrorHandler.handle_error, hk]
  · intro h
    exact ⟨rfl, rfl, fun _ => rfl⟩

/-- C9 witness: the invariant propagates through one concrete
`handle_error` call on the fresh handler. -/
theorem error_stats_invariant_witness :
    (ErrorHandler.init.handle_error (RaisedExc.validationError [])).1.error_count =
      statsTotal (ErrorHandler.init.handle_error (RaisedExc.validationError [])).1 :=
  (error_stats_invariant.2.1 ErrorHandler.init (RaisedExc.validationError []) rfl).1

/-- C3: with maximum attempt count `K` (as an integer, Python's
`max_retries`) and base delay `d`: an operation that fails with retryable
errors on its first `N` attempts and succeeds on attempt `N` (`N < K`)
makes exactly `N + 1` attempts, returns the success value, and waits
`d*2^0, d*2^1, ..., d*2^(N-1)` before the respective retries; an operation
that always fails with retryable errors is attempted exactly `K` times,
waits `d*2^0, ..., d*2^(K-2)`, and the last failure is re-raised. -/
theorem retry_operation_bounds {α : Type} (op : Nat → Except RaisedExc α)
    (K : Int) (d : Rat) :
    (∀ (N : Nat) (v : α), (N : Int) < K →
      (∀ i, i < N → ∃ e, op i = Except.error e ∧ e.retryable = true) →
      op N = Except.ok v →
      retry_operation op K d =
        (RetryResult.ok v, N + 1, (List.range N).map (fun i => d * 2 ^ i)))
  ∧ (∀ errAt : Nat → RaisedExc,
      (∀ i, op i = Except.error (errAt i)) →
      (∀ i, (errAt i).retryable = true) →
      0 < K →
      retry_operation op K d =
        (RetryResult.raised (errAt (K.toNat - 1)), K.toNat,
         (List.range (K.toNat - 1)).map (fun i => d * 2 ^ i))) := by
  constructor
  · intro N v hNK hfail hok
    have hN : N < K.toNat := by omega
    have := retryFrom_success op d N K.toNat 0 none v
      (by intro i hi; simpa using hfail i hi) (by simpa using hok) hN
    simpa [retry_operation] using this
  · intro errAt hfail hre hK
    obtain ⟨m, hm⟩ : ∃ m, K.toNat = m + 1 := ⟨K.toNat - 1, by omega⟩
    have := retryFrom_allfail op d errAt hfail hre m 0 none
    rw [retry_operation, hm]
    simpa [hm] using this

/-- C3 witness: an operation failing once with a connection error then
succeeding, under `max_retries = 3`, returns the value on the second
attempt after one wait of `d * 2^0`. -/
theorem retry_operation_bounds_witness :
    retry_operation
        (fun i => if i = 0 then Except.error (RaisedExc.connectionError []) else Except.ok 37)
        3 1 =
      (RetryResult.ok 37, 2, (List.range 1).map (fun i => (1 : Rat) * 2 ^ i)) :=
  (retry_operation_bounds
      (fun i => if i = 0 then Except.error (RaisedExc.connectionError []) else Except.ok 37)
      3 1).1 1 37 (by decide)
    (fun i hi => ⟨RaisedExc.connectionError [], by
      have : i = 0 := by omega
      subst this
      exact ⟨rfl, rfl⟩⟩)
    rfl

/-- C4: only `ConnectionError` and `TimeoutError` raised by the operation
are retryable, and their kinds are `Connection` and `Timeout`; an
operation whose first attempt raises any non-retryable exception (in
particular a `ValidationError`) is attempted exactly once, with no waits,
and the failure propagates immediately. -/
theorem retry_operation_fail_fast {α : Type} :
    (∀ e : RaisedExc, e.retryable = true →
      e.kindOf = some ErrorType.connection ∨ e.kindOf = some ErrorType.timeout)
  ∧ (∀ (op : Nat → Except RaisedExc α) (K : Int) (d : Rat) (e : RaisedExc),
      0 < K → op 0 = Except.error e → e.retryable = false →
      retry_operation op K d = (RetryResult.raised e, 1, [])) := by
  constructor
  · intro e he
    cases e <;> simp_all [RaisedExc.retryable, RaisedExc.kindOf, RaisedExc.toOllama]
  · intro op K d e hK hop hre
    obtain ⟨m, hm⟩ : ∃ m, K.toNat = m + 1 := ⟨K.toNat - 1, by omega⟩
    rw [retry_operation, hm, retryFrom_succ, hop]
    simp [hre]

/-- C4 witness: a validation error on the first attempt under
`max_retries = 3` is raised immediately after exactly one attempt. -/
theorem retry_operation_fail_fast_witness :
    retry_operation (fun _ => (Except.error (RaisedExc.validationError []) : Except RaisedExc Nat)) 3 1 =
      (RetryResult.raised (RaisedExc.validationError []), 1, []) :=
  (retry_operation_fail_fast).2
    (fun _ => Except.error (RaisedExc.validationError [])) 3 1
    (RaisedExc.validationError []) (by decide) rfl rfl

/-- C10: with `max_retries = 0` (or any non-positive value) the loop body
never runs: the operation is never invoked, no backoff wait happens, and
the final `raise last_error` fires with the `None` sentinel, producing a
host-language `TypeError` rather than a classified `OllamaError`. -/
theorem retry_operation_nonpositive {α : Type} (op : Nat → Except RaisedExc α)
    (K : Int) (d : Rat) (hK : K ≤ 0) :
    retry_operation op K d = (RetryResult.raiseNoneTypeError, 0, []) := by
  have h0 : K.toNat = 0 := by omega
  rw [retry_operation, h0]
  rfl

/-- C10 witness: `max_retries = 0` on an always-succeeding operation still
never calls it and raises the unclassified `TypeError`. -/
theorem retry_operation_nonpositive_witness :
    retry_operation (fun _ => (Except.ok 5 : Except RaisedExc Nat)) 0 1 =
      (RetryResult.raiseNoneTypeError, 0, []) :=
  retry_operation_nonpositive (fun _ => Except.ok 5) 0 1 (by decide)

/-- C5: `set(q, r, c, m)` followed immediately by `get(q, c, m)` — that
is, before the configured max age elapses — with storage succeeding,
returns exactly `r`. -/
theorem cache_set_get_roundtrip (maxAge now now2 : Int) (fs : OllamaCache.FS)
    (q r c m : PyStr) (h : ¬ now2 - now > maxAge) :
    (OllamaCache.get maxAge now2 (OllamaCache.set now fs q r c m true) q c m).1 =
      Except.ok (some r) := by
  simp [OllamaCache.get, OllamaCache.set, OllamaCache.fsSet, h]

/-- C5 witness: a concrete immediate round-trip with the default 24-hour
max age. -/
theorem cache_set_get_roundtrip_witness :
    (OllamaCache.get 86400 0
        (OllamaCache.set 0 (fun _ => none) (pstr "a") (pstr "b") [] [] true)
        (pstr "a") [] []).1 = Except.ok (some (pstr "b")) :=
  cache_set_get_roundtrip 86400 0 0 (fun _ => none) (pstr "a") (pstr "b") [] []
    (by decide)

/-- C6: a stored entry whose age `now - t` strictly exceeds the configured
maximum is a miss: `get` returns `None` and deletes the on-disk entry. -/
theorem cache_get_expired (maxAge now t : Int) (fs : OllamaCache.FS)
    (q c m : PyStr) (r : OllamaCache.CacheRecord)
    (hfs : fs (OllamaCache._generate_cache_key q c m) =
      some (OllamaCache.StoredPayload.record r))
    (hts : r.timestamp = some (OllamaCache.TsField.validIso t))
    (hold : now - t > maxAge) :
    (OllamaCache.get maxAge now fs q c m).1 = Except.ok none ∧
      (OllamaCache.get maxAge now fs q c m).2
        (OllamaCache._generate_cache_key q c m) = none := by
  constructor <;> simp [OllamaCache.get, OllamaCache.fsSet, hfs, hts, hold]

/-- A cache entry written at time 0. -/
def expiredRecord : OllamaCache.CacheRecord :=
  ⟨some (pstr "q"), some (pstr "resp"), some [], some [],
   some (OllamaCache.TsField.validIso 0), none⟩

/-- A cache directory holding `expiredRecord` under the key for
`("q", "", "")`. -/
def expiredFS : OllamaCache.FS :=
  fun k =>
    if k = OllamaCache._generate_cache_key (pstr "q") [] [] then
      some (OllamaCache.StoredPayload.record expiredRecord)
    else none

/-- C6 witness: reading that entry 100000 seconds later (max age 86400)
misses. -/
theorem cache_get_expired_witness :
    (OllamaCache.get 86400 100000 expiredFS (pstr "q") [] []).1 = Except.ok none :=
  (cache_get_expired 86400 100000 0 expiredFS (pstr "q") [] [] expiredRecord
    (if_pos rfl) rfl (by decide)).1

/-- A cache entry whose `timestamp` field is present but is not a valid
ISO datetime string. -/
def corruptRecord : OllamaCache.CacheRecord :=
  ⟨some (pstr "q"), some (pstr "x"), some [], some [],
   some OllamaCache.TsField.badString, none⟩

/-- A cache directory holding `corruptRecord` under the key for
`("q", "", "")`. -/
def corruptFS : OllamaCache.FS :=
  fun k =>
    if k = OllamaCache._generate_cache_key (pstr "q") [] [] then
      some (OllamaCache.StoredPayload.record corruptRecord)
    else none

/-- C2 evaluated at the failing input: a malformed payload whose
`timestamp` field parses as JSON but is not a valid ISO datetime makes
`get` raise `ValueError` (uncaught: only `JSONDecodeError`, `KeyError` and
`OSError` are handled) and leaves the corrupt entry on disk, contradicting
"returns None, deletes the entry and never raises". -/
theorem get_raises_on_bad_timestamp :
    (OllamaCache.get 86400 0 corruptFS (pstr "q") [] []).1 =
      Except.error OllamaCache.GetRaise.valueError
    ∧ (OllamaCache.get 86400 0 corruptFS (pstr "q") [] []).2
        (OllamaCache._generate_cache_key (pstr "q") [] []) =
        some (OllamaCache.StoredPayload.record corruptRecord) := by
  constructor <;> simp [OllamaCache.get, corruptFS, corruptRecord]

set_option maxRecDepth 20000 in
/-- C8: the cache key is a deterministic pure function of the triple —
computing it twice yields identical keys — and it is exactly the MD5 hex
digest of the UTF-8 encoding of `question + "|" + context + "|" + model`;
empty strings are valid inputs and distinguish entries: the keys of
`("q","","")` and `("q","c","")` differ. -/
theorem cache_key_deterministic :
    (∀ q c m : PyStr,
      OllamaCache._generate_cache_key q c m = OllamaCache._generate_cache_key q c m)
  ∧ (∀ q c m : PyStr,
      OllamaCache._generate_cache_key q c m =
        MD5.md5hex (utf8Encode (q ++ pstr "|" ++ c ++ pstr "|" ++ m)))
  ∧ OllamaCache._generate_cache_key (pstr "q") [] [] ≠
      OllamaCache._generate_cache_key (pstr "q") (pstr "c") [] :=
  ⟨fun _ _ _ => rfl, fun _ _ _ => rfl, by decide⟩

end OllamaSpec
